import Mathlib

/-!
# Verification of the catalyst-ngd-wrappers-azure request pipeline

Shallow embedding of the request normalization, schema-driven validation,
dispatch and response post-processing pipeline of the repository
(`utils.py`, `schemas.py`, `lambda_app.py`, `function_app.py`,
`Azure/function_app.py`), together with proofs settling the frozen claims
about it.

Python dictionaries are embedded as association lists with unique keys
(`Dict`), Python values occurring in the pipeline as the inductive `Value`,
and Python exceptions as `Except String`: `.error msg` models an exception
propagating out of the modelled code.
-/

/-- A Python value as it occurs in the request pipeline: `null` models
Python `None`; query parameter values arrive as strings and may be turned
into integers, booleans or string lists by validation. -/
inductive Value where
  | null
  | str (s : String)
  | int (n : Int)
  | bool (b : Bool)
  | list (l : List String)
deriving DecidableEq, Repr

/-- A Python `dict` with string keys, embedded as an association list
(keys unique, insertion order preserved, as in Python 3.7+). -/
abbrev Dict := List (String × Value)

/-- `d.get(k)`: first binding of `k`, `Option.none` when absent. -/
def dictGet (d : Dict) (k : String) : Option Value :=
  (d.find? (fun kv => kv.1 = k)).map (·.2)

/-- `d[k] = v`: replace the value at `k` in place if present (keeping its
position, as Python dicts do), otherwise append the new binding. -/
def dictSet (d : Dict) (k : String) (v : Value) : Dict :=
  if d.any (fun kv => kv.1 = k) then
    d.map (fun kv => if kv.1 = k then (k, v) else kv)
  else
    d ++ [(k, v)]

/-- `d.pop(k, default)` / `del d[k]`: drop the binding of `k`. -/
def dictRemove (d : Dict) (k : String) : Dict :=
  d.filter (fun kv => ¬ kv.1 = k)

/-- Python truthiness of a `Value` (`if v:`). -/
def valTruthy : Value → Bool
  | .null => false
  | .str s => ¬ s = ""
  | .int n => ¬ n = 0
  | .bool b => b
  | .list l => ¬ l = []

/-- Python truthiness of a `d.get(k)` result (`None` is falsy). -/
def pyTruthy : Option Value → Bool
  | Option.none => false
  | some v => valTruthy v

/-- `listStartsWith l p`: `p` is an initial segment of `l`
(Python `str.startswith`, used to embed `str.replace`). -/
def listStartsWith : List Char → List Char → Bool
  | _, [] => true
  | [], _ :: _ => false
  | c :: cs, d :: ds => c = d && listStartsWith cs ds

/-- Fuel-driven core of Python `str.replace(old, new)`: replace
non-overlapping occurrences of `old` left to right.  The fuel is the
length of the scanned list, which each step consumes at least one of,
so `pyReplace` below never exhausts it. -/
def pyReplaceFuel (old new : List Char) : Nat → List Char → List Char
  | _, [] => []
  | 0, l => l
  | fuel + 1, c :: cs =>
    if listStartsWith (c :: cs) old then
      new ++ pyReplaceFuel old new fuel (List.drop (old.length - 1) cs)
    else
      c :: pyReplaceFuel old new fuel cs

/-- Python `s.replace(old, new)` for a non-empty pattern `old`.  Also used
to embed `s.format(attr=x)`, which for the descriptions occurring here
(no other placeholders, no brace escapes) coincides with replacing the
literal substring `\x7battr\x7d`. -/
def pyReplace (s old new : String) : String :=
  ⟨pyReplaceFuel old.data new.data s.data.length s.data⟩

/-- Core of Python `s.split(sep)` for a single-character separator:
accumulates the current chunk (reversed) and cuts at each separator.
`"".split(',') = [""]` and empty chunks are kept, as in Python. -/
def pySplitAux (sep : Char) : List Char → List Char → List (List Char)
  | [], acc => [acc.reverse]
  | c :: cs, acc =>
    if c = sep then acc.reverse :: pySplitAux sep cs []
    else pySplitAux sep cs (c :: acc)

/-- Python `s.split(sep)` for a single-character separator
(`col.split(',')` in `construct_features_response`). -/
def pySplit (s : String) (sep : Char) : List String :=
  (pySplitAux sep s.data []).map (fun l => ⟨l⟩)

/-- One digit of a decimal literal. -/
def charDigit? (c : Char) : Option Nat :=
  if '0' ≤ c ∧ c ≤ '9' then some (c.toNat - '0'.toNat) else Option.none

/-- Accumulating decimal evaluation; fails on any non-digit. -/
def digitsValAux : Nat → List Char → Option Nat
  | acc, [] => some acc
  | acc, c :: cs =>
    match charDigit? c with
    | some d => digitsValAux (acc * 10 + d) cs
    | Option.none => Option.none

/-- Value of a non-empty all-digit character list. -/
def digitsToNat : List Char → Option Nat
  | [] => Option.none
  | l => digitsValAux 0 l

/-- Whitespace stripped by Python `int(str)`. -/
def isPySpace (c : Char) : Bool :=
  c = ' ' || c = '\t' || c = '\n' || c = '\r'

/-- Python `int(s)` on a string: optional surrounding whitespace, optional
sign, then decimal digits; anything else raises `ValueError` (`Option.none`
here).  Digit-group underscores, also accepted by Python, are not modelled:
no claim exercises them. -/
def pyParseInt (s : String) : Option Int :=
  let t := ((s.data.dropWhile isPySpace).reverse.dropWhile isPySpace).reverse
  match t with
  | '+' :: rest => (digitsToNat rest).map Int.ofNat
  | '-' :: rest => (digitsToNat rest).map (fun n => -(n : Int))
  | l => (digitsToNat l).map Int.ofNat

/-! ## Capability schema registry (`schemas.py`)

Marshmallow schemas are embedded as lists of field declarations.  A field
records its attribute name (`x` in `x = Boolean(...)`), its wire name
(`data_key`, defaulting to the attribute name), its type and whether it is
required.  Class composition follows marshmallow's `SchemaMeta`:
`_declared_fields = dict(inherited_fields + cls_fields)` where
`inherited_fields` concatenates the `_declared_fields` of every base class
in reverse method-resolution order; the `dict(...)` call keeps the first
insertion position of each name and lets later declarations overwrite the
value. -/

/-- The semantic type of a schema field (`marshmallow.fields`). -/
inductive FieldType where
  | string
  | integer
  | boolean
  | listString
deriving DecidableEq, Repr

/-- One marshmallow field declaration. -/
structure SchemaField where
  name : String
  dataKey : String
  ty : FieldType
  required : Bool
deriving DecidableEq, Repr

/-- Insertion into an ordered field dictionary keyed by attribute name:
an existing name keeps its position and takes the new declaration,
a new name is appended (Python `dict` update semantics). -/
def fieldDictInsert (fs : List SchemaField) (f : SchemaField) : List SchemaField :=
  if fs.any (fun g => g.name = f.name) then
    fs.map (fun g => if g.name = f.name then f else g)
  else
    fs ++ [f]

/-- `dict(declarations)`: fold the marshmallow field declarations into an
ordered dictionary. -/
def declaredFields (l : List SchemaField) : List SchemaField :=
  l.foldl fieldDictInsert []

/-- `wkt = String(required=False)` on `CatalystBaseSchema`. -/
def wktField : SchemaField := ⟨"wkt", "wkt", .string, false⟩

/-- `use_latest_collection = Boolean(data_key='use-latest-collection')`. -/
def useLatestCollectionField : SchemaField :=
  ⟨"use_latest_collection", "use-latest-collection", .boolean, false⟩

/-- `hierarchical_output = Boolean(data_key='hierarchical-output')`. -/
def hierarchicalOutputField : SchemaField :=
  ⟨"hierarchical_output", "hierarchical-output", .boolean, false⟩

/-- `request_limit = Integer(data_key='request-limit')` on `LimitSchema`. -/
def requestLimitField : SchemaField :=
  ⟨"request_limit", "request-limit", .integer, false⟩

/-- `collection = List(String(), required=True)` on `ColSchema`. -/
def collectionField : SchemaField := ⟨"collection", "collection", .listString, true⟩

/-- `flag_recent_updates = Boolean(data_key='flag-recent-updates')`. -/
def flagRecentUpdatesField : SchemaField :=
  ⟨"flag_recent_updates", "flag-recent-updates", .boolean, false⟩

/-- `recent_update_days = Integer(data_key='recent-update-days')`. -/
def recentUpdateDaysField : SchemaField :=
  ⟨"recent_update_days", "recent-update-days", .integer, false⟩

/-- `LatestCollectionsSchema`: fields of the latest-collections endpoint. -/
def latestCollectionsSchemaFields : List SchemaField :=
  declaredFields [flagRecentUpdatesField, recentUpdateDaysField]

/-- `CatalystBaseSchema._declared_fields`. -/
def catalystBaseSchemaFields : List SchemaField :=
  declaredFields [wktField, useLatestCollectionField]

/-- `AbstractHierarchicalSchema(CatalystBaseSchema)._declared_fields`. -/
def abstractHierarchicalSchemaFields : List SchemaField :=
  declaredFields (catalystBaseSchemaFields ++ [hierarchicalOutputField])

/-- `LimitSchema(CatalystBaseSchema)._declared_fields`. -/
def limitSchemaFields : List SchemaField :=
  declaredFields (catalystBaseSchemaFields ++ [requestLimitField])

/-- `GeomSchema(AbstractHierarchicalSchema)._declared_fields`
(reverse MRO: `CatalystBaseSchema`, `AbstractHierarchicalSchema`). -/
def geomSchemaFields : List SchemaField :=
  declaredFields (catalystBaseSchemaFields ++ abstractHierarchicalSchemaFields)

/-- `ColSchema(AbstractHierarchicalSchema)._declared_fields`. -/
def colSchemaFields : List SchemaField :=
  declaredFields
    (catalystBaseSchemaFields ++ abstractHierarchicalSchemaFields ++ [collectionField])

/-- `LimitGeomSchema(LimitSchema, GeomSchema)._declared_fields`
(reverse MRO: `CatalystBaseSchema`, `AbstractHierarchicalSchema`,
`GeomSchema`, `LimitSchema`). -/
def limitGeomSchemaFields : List SchemaField :=
  declaredFields
    (catalystBaseSchemaFields ++ abstractHierarchicalSchemaFields ++
      geomSchemaFields ++ limitSchemaFields)

/-- `LimitColSchema(LimitSchema, ColSchema)._declared_fields`
(reverse MRO: `CatalystBaseSchema`, `AbstractHierarchicalSchema`,
`ColSchema`, `LimitSchema`). -/
def limitColSchemaFields : List SchemaField :=
  declaredFields
    (catalystBaseSchemaFields ++ abstractHierarchicalSchemaFields ++
      colSchemaFields ++ limitSchemaFields)

/-- `GeomColSchema(GeomSchema, ColSchema)._declared_fields`
(reverse MRO: `CatalystBaseSchema`, `AbstractHierarchicalSchema`,
`ColSchema`, `GeomSchema`). -/
def geomColSchemaFields : List SchemaField :=
  declaredFields
    (catalystBaseSchemaFields ++ abstractHierarchicalSchemaFields ++
      colSchemaFields ++ geomSchemaFields)

/-- `LimitGeomColSchema(LimitSchema, GeomSchema, ColSchema)._declared_fields`
(reverse MRO: `CatalystBaseSchema`, `AbstractHierarchicalSchema`,
`ColSchema`, `GeomSchema`, `LimitSchema`). -/
def limitGeomColSchemaFields : List SchemaField :=
  declaredFields
    (catalystBaseSchemaFields ++ abstractHierarchicalSchemaFields ++
      colSchemaFields ++ geomSchemaFields ++ limitSchemaFields)

/-- A schema instance as the pipeline sees it: its field dictionary and the
result of the `isinstance(schema, ColSchema)` test used by the dispatcher
(true exactly for the classes inheriting `ColSchema`). -/
structure SchemaDef where
  fields : List SchemaField
  isCol : Bool
deriving DecidableEq, Repr

/-- `CatalystBaseSchema()`. -/
def CatalystBaseSchema : SchemaDef := ⟨catalystBaseSchemaFields, false⟩

/-- `LimitSchema()`. -/
def LimitSchema : SchemaDef := ⟨limitSchemaFields, false⟩

/-- `GeomSchema()`. -/
def GeomSchema : SchemaDef := ⟨geomSchemaFields, false⟩

/-- `ColSchema()`. -/
def ColSchema : SchemaDef := ⟨colSchemaFields, true⟩

/-- `LimitGeomSchema()`. -/
def LimitGeomSchema : SchemaDef := ⟨limitGeomSchemaFields, false⟩

/-- `LimitColSchema()`. -/
def LimitColSchema : SchemaDef := ⟨limitColSchemaFields, true⟩

/-- `GeomColSchema()`. -/
def GeomColSchema : SchemaDef := ⟨geomColSchemaFields, true⟩

/-- `LimitGeomColSchema()`. -/
def LimitGeomColSchema : SchemaDef := ⟨limitGeomColSchemaFields, true⟩

/-- The schemas of the eight feature endpoints, one per capability
combination (`function_app.py` / `lambda_app.py` route handlers). -/
def featureSchemas : List SchemaDef :=
  [CatalystBaseSchema, LimitSchema, GeomSchema, ColSchema,
   LimitGeomSchema, LimitColSchema, GeomColSchema, LimitGeomColSchema]

/-! ## Validator (`marshmallow.Schema.load` with `Meta.unknown = INCLUDE`)

`schema.load(params)` matches each declared field against the input by its
wire name (`data_key`), coerces the value to the declared type and stores
it under the attribute name; a missing required field or an uncoercible
value raises `ValidationError` (the embedding reports the first such error,
where marshmallow collects them all — the error text is only ever fed to
`str(e)` in `handle_error`, which no claim depends on).  Input keys that
match no declared wire name are included unchanged (`unknown = INCLUDE`). -/

/-- Marshmallow `Boolean.truthy` string literals. -/
def marshTruthy : List String :=
  ["t", "T", "true", "True", "TRUE", "on", "On", "ON",
   "y", "Y", "yes", "Yes", "YES", "1"]

/-- Marshmallow `Boolean.falsy` string literals. -/
def marshFalsy : List String :=
  ["f", "F", "false", "False", "FALSE", "off", "Off", "OFF",
   "n", "N", "no", "No", "NO", "0"]

/-- Coercion of one input value by field type, `Option.none` on a
`ValidationError`: `String` accepts only strings; `Integer` applies Python
`int(...)` to strings and accepts integers; `Boolean` matches string
literals against marshmallow's `truthy`/`falsy` sets and accepts booleans;
`List(String())` accepts only a list of strings. -/
def coerceValue : FieldType → Value → Option Value
  | .string, .str s => some (.str s)
  | .string, _ => Option.none
  | .integer, .str s => (pyParseInt s).map .int
  | .integer, .int n => some (.int n)
  | .integer, _ => Option.none
  | .boolean, .str s =>
    if s ∈ marshTruthy then some (.bool true)
    else if s ∈ marshFalsy then some (.bool false)
    else Option.none
  | .boolean, .bool b => some (.bool b)
  | .boolean, _ => Option.none
  | .listString, .list l => some (.list l)
  | .listString, _ => Option.none

/-- Processing of the declared fields, in schema declaration order: coerce
each present field's value under its attribute name, skip absent optional
fields, fail on an absent required field or an uncoercible value. -/
def loadDeclared (params : Dict) : List SchemaField → Except String Dict
  | [] => .ok []
  | f :: rest =>
    match dictGet params f.dataKey with
    | some v =>
      match coerceValue f.ty v with
      | some v' => (loadDeclared params rest).map (fun d => (f.name, v') :: d)
      | Option.none => .error ("Invalid value for field " ++ f.dataKey)
    | Option.none =>
      if f.required then .error ("Missing data for required field " ++ f.dataKey)
      else loadDeclared params rest

/-- `schema.load(params)`: the coerced declared fields followed by the
pass-through of every input key that is not a declared wire name. -/
def schemaLoad (fields : List SchemaField) (params : Dict) : Except String Dict :=
  (loadDeclared params fields).map
    (fun d => d ++ params.filter (fun kv => fields.all (fun f => ¬ f.dataKey = kv.1)))

/-! ## Canonical request and error handler (`utils.py`) -/

/-- `BaseSerialisedRequest`: method, url, query parameters, path parameters
and headers of one inbound request.  `method` is a `Value` because the AWS
adapter reads it with `.get` and may store `None`; `route_params` is an
`Option` because `event.get('pathParameters')` has no default and may be
`None`. -/
structure BaseSerialisedRequest where
  method : Value
  url : String
  params : Dict
  route_params : Option Dict
  headers : Dict
deriving DecidableEq, Repr

/-- `handle_error(description=..., code=...)` (and `handle_error(error=e)`
with `description = str(e)`): the single error-body construction point. -/
def handle_error (description : String) (code : Int) : Dict :=
  [("code", .int code), ("description", .str description),
   ("errorSource", .str "Catalyst Wrapper")]

/-- The 405 body produced for any non-GET method. -/
def methodNotAllowedBody : Dict :=
  handle_error
    "The HTTP method requested is not supported. This endpoint only supports 'GET' requests."
    405

/-- The 400 body of the latest-collections parameter guard. -/
def latestCollectionsRejectBody : Dict :=
  handle_error "The only supported query parameter is 'recent-update-days'." 400

/-! ## Dispatcher and post-processor (`utils.py`, `construct_features_response`) -/

/-- The downstream NGD function family, opaque to the pipeline: receives
`query_params`, `headers` and the expanded control parameters, returns a
response dict or raises. -/
abbrev NgdFunc := Dict → Dict → Dict → Except String Dict

/-- The multi-collection pre-validation step: `col = params.get('collection')`,
and when `col` is truthy, `params['collection'] = col.split(',')` — an
in-place update of the very dict held by the request (and, for the AWS
adapter, by the original event).  The result is the dict's new state;
`.split` on a non-string raises `AttributeError`. -/
def splitCollectionParams (multi : Bool) (params : Dict) : Except String Dict :=
  if multi then
    match dictGet params "collection" with
    | some v =>
      if valTruthy v then
        match v with
        | .str s => .ok (dictSet params "collection" (.list (pySplit s ',')))
        | _ => .error "AttributeError: split"
      else .ok params
    | Option.none => .ok params
  else .ok params

/-- `custom_params = {k: parsed_params.pop(k) for k in schema.fields.keys()
if k in parsed_params}`: the declared fields present in the validated
mapping, as control parameters. -/
def controlPop (fields : List SchemaField) (parsed : Dict) : Dict :=
  fields.filterMap (fun f => (dictGet parsed f.name).map (fun v => (f.name, v)))

/-- The validated mapping after the pops: what remains is forwarded to the
downstream function as `query_params`. -/
def forwardedParams (fields : List SchemaField) (parsed : Dict) : Dict :=
  parsed.filter (fun kv => ¬ fields.any (fun f => f.name = kv.1))

/-- The full control-parameter set: the popped declared fields, and for a
single-collection schema additionally
`custom_params['collection'] = data.route_params.get('collection')`. -/
def controlParams (schema : SchemaDef) (parsed : Dict) (rp : Dict) : Dict :=
  let custom := controlPop schema.fields parsed
  if schema.isCol then custom
  else dictSet custom "collection" ((dictGet rp "collection").getD Value.null)

/-- The response post-processing of `construct_features_response`: when the
downstream result has a truthy `errorSource` and a string `description`,
substitute the `\x7battr\x7d` placeholder with the comma-joined,
hyphen-converted schema field names — filtered by `x != 'limit'` over the
attribute names. -/
def postProcessDescription (schema : SchemaDef) (response : Dict) : Dict :=
  if pyTruthy (dictGet response "errorSource") then
    match dictGet response "description" with
    | some (.str s) =>
      let fieldNames :=
        ((schema.fields.map (fun f => f.name)).filter (fun x => ¬ x = "limit")).map
          (fun x => pyReplace x "_" "-")
      let attributes := String.intercalate ", " fieldNames
      dictSet response "description" (.str (pyReplace s "{attr}" attributes))
    | _ => response
  else response

/-- `construct_features_response(data, schema_class, ngd_api_func)` from
`utils.py`: method guard, multi-collection split, validation, partition
into control and forwarded parameters, downstream call, post-processing.
A raised exception (including one from the downstream function) is not
caught here and surfaces as `.error`.  The commented-out telemetry block
of `utils.py` has no effect and is not modelled. -/
def construct_features_response (schema : SchemaDef) (ngd : NgdFunc)
    (data : BaseSerialisedRequest) : Except String Dict := do
  if ¬ data.method = .str "GET" then
    return methodNotAllowedBody
  let params ← splitCollectionParams schema.isCol data.params
  match schemaLoad schema.fields params with
  | .error e => return handle_error e 400
  | .ok parsed =>
    let custom ←
      if schema.isCol then pure (controlPop schema.fields parsed)
      else
        match data.route_params with
        | some rp => pure (controlParams schema parsed rp)
        | Option.none => throw "AttributeError: NoneType has no attribute get"
    let response ← ngd (forwardedParams schema.fields parsed) data.headers custom
    return postProcessDescription schema response

/-! ## Latest-collections endpoint (`utils.py`, `construct_collections_response`) -/

/-- `construct_collections_response(data)` from `utils.py`: method guard,
then the parameter-count guard (`len(params) > 1`, or `len(params) == 1`
with a falsy `params.get('recent-update-days')`) before any schema
validation, then `LatestCollectionsSchema().load` and the dispatch to
`get_specific_latest_collections([collection], **parsed)` when the path
holds a truthy collection, else `get_latest_collection_versions(**parsed)`.
The two downstream functions are parameters `latestSpecific`/`latestAll`.
The `custom_dimensions` dict feeds only the commented-out `track_event`
call and is not modelled. -/
def construct_collections_response
    (latestAll : Dict → Except String Dict)
    (latestSpecific : Value → Dict → Except String Dict)
    (data : BaseSerialisedRequest) : Except String Dict := do
  if ¬ data.method = .str "GET" then
    return methodNotAllowedBody
  let params := data.params
  if params.length > 1 ∨ (params.length = 1 ∧ ¬ pyTruthy (dictGet params "recent-update-days")) then
    return latestCollectionsRejectBody
  let collection ←
    match data.route_params with
    | some rp => pure (dictGet rp "collection")
    | Option.none => throw "AttributeError: NoneType has no attribute get"
  match schemaLoad latestCollectionsSchemaFields params with
  | .error e => return handle_error e 400
  | .ok parsed =>
    match collection with
    | some c => if valTruthy c then latestSpecific c parsed else latestAll parsed
    | Option.none => latestAll parsed

/-! ## AWS platform adapter (`lambda_app.py`) -/

/-- An AWS Lambda trigger event, restricted to the parts the adapter reads.
Each component is `Option`al: `event.get(...)` yields `None` when absent. -/
structure Event where
  http : Option Dict
  requestContext : Option Dict
  queryStringParameters : Option Dict
  pathParameters : Option Dict
  headers : Option Dict
deriving DecidableEq, Repr

/-- `AWSSerialisedRequest(event)`: reads
`event.get('http').get('method')` (an `AttributeError` when `http` is
absent), concatenates `requestContext.get('domainName') + ...get('path')`
(a `TypeError` unless both are strings), and stores
`event.get('queryStringParameters', {})` WITHOUT copying — `data.params`
is the same dict object as the event's, so later in-place updates by the
pipeline write through to the original event. -/
def awsSerialisedRequest (event : Event) : Except String BaseSerialisedRequest := do
  let httpD ←
    match event.http with
    | some d => pure d
    | Option.none => throw "AttributeError: NoneType has no attribute get"
  let method := (dictGet httpD "method").getD Value.null
  let ctx := event.requestContext.getD []
  let url ←
    match dictGet ctx "domainName", dictGet ctx "path" with
    | some (.str a), some (.str b) => pure (a ++ b)
    | _, _ => throw "TypeError: unsupported operand types for +"
  pure ⟨method, url, event.queryStringParameters.getD [],
        event.pathParameters, event.headers.getD []⟩

/-- The AWS Lambda response envelope built by `aws_serialise_response`. -/
structure AwsEnvelope where
  isBase64Encoded : Bool
  statusCode : Value
  headers : Value
  body : Dict
deriving DecidableEq, Repr

/-- `aws_serialise_response(data)`: pops `code` (default 200) off the dict,
then reads `data['headers']` — which RAISES `KeyError` when the dict has no
`headers` entry, as is the case for every `handle_error` body. -/
def aws_serialise_response (data : Dict) : Except String AwsEnvelope :=
  let code := (dictGet data "code").getD (.int 200)
  let data' := dictRemove data "code"
  match dictGet data' "headers" with
  | some h => .ok ⟨false, code, h, data'⟩
  | Option.none => .error "KeyError: headers"

/-- `aws_process_request(event, construct_response_func, **kwargs)`: the
outermost AWS wrapper.  The `try` block builds the request, runs the
response constructor and serialises; `except Exception` builds
`handle_error(error=e, code=500)` and serialises THAT — and an exception
raised inside the `except` block (the `KeyError` above) propagates to the
hosting platform, surfacing here as a final `.error`. -/
def aws_process_request (construct : BaseSerialisedRequest → Except String Dict)
    (event : Event) : Except String AwsEnvelope :=
  match (do
      let data ← awsSerialisedRequest event
      let response ← construct data
      aws_serialise_response response : Except String AwsEnvelope) with
  | .ok env => .ok env
  | .error e => aws_serialise_response (handle_error e 500)

/-! ## Azure platform adapters (`function_app.py` and `Azure/function_app.py`) -/

/-- What a Python handler returns to the Azure runtime: a bare dict (the
`return handle_error(...)` paths of `function_app.py`), an `HttpResponse`
(status code and the dict serialised into its JSON body), or `None` — the
implicit return of a function body that falls off the end. -/
inductive PyReturn where
  | dict (d : Dict)
  | http (status : Value) (body : Dict)
  | implicitNone
deriving DecidableEq, Repr

/-- `construct_response(req, schema_class, func_)` from `function_app.py`
(repository root): same pipeline as `construct_features_response`, plus
`data.pop('telemetryData', None)` and an `HttpResponse` wrapper with
`status_code = data.get('code', 200)`.  Its `except Exception` block calls
`handle_error(error=e, code=500)` but DOES NOT return it, so the function
returns `None`.  The 405 and validation-error paths return the bare
`handle_error` dict rather than an `HttpResponse`. -/
def fa_construct_response (schema : SchemaDef) (ngd : NgdFunc)
    (data : BaseSerialisedRequest) : PyReturn :=
  match (do
      if ¬ data.method = .str "GET" then
        return PyReturn.dict methodNotAllowedBody
      let params ← splitCollectionParams schema.isCol data.params
      match schemaLoad schema.fields params with
      | .error e => return PyReturn.dict (handle_error e 400)
      | .ok parsed =>
        let custom ←
          if schema.isCol then pure (controlPop schema.fields parsed)
          else
            match data.route_params with
            | some rp => pure (controlParams schema parsed rp)
            | Option.none => throw "AttributeError: NoneType has no attribute get"
        let response ← ngd (forwardedParams schema.fields parsed) data.headers custom
        let response := postProcessDescription schema response
        let response := dictRemove response "telemetryData"
        let code := (dictGet response "code").getD (.int 200)
        return PyReturn.http code response : Except String PyReturn) with
  | .ok r => r
  | .error _ => PyReturn.implicitNone

/-- `construct_response(req, schema_class, func_)` from
`Azure/function_app.py`: the same pipeline, with every error path wrapped
in an `HttpResponse` — including the `except Exception` path, which
returns a 500 response whose body is
`{"code": 500, "description": str(e), "errorSource": "Catalyst Wrapper"}`.
The telemetry pop is gated on the `LOG_REQUEST_DETAILS` environment flag,
and the success `HttpResponse` carries no explicit status (the framework
default, 200). -/
def azure_construct_response (logRequestDetails : Bool) (schema : SchemaDef)
    (ngd : NgdFunc) (data : BaseSerialisedRequest) : PyReturn :=
  match (do
      if ¬ data.method = .str "GET" then
        return PyReturn.http (.int 405) methodNotAllowedBody
      let params ← splitCollectionParams schema.isCol data.params
      match schemaLoad schema.fields params with
      | .error e => return PyReturn.http (.int 400) (handle_error e 400)
      | .ok parsed =>
        let custom ←
          if schema.isCol then pure (controlPop schema.fields parsed)
          else
            match data.route_params with
            | some rp => pure (controlParams schema parsed rp)
            | Option.none => throw "AttributeError: NoneType has no attribute get"
        let response ← ngd (forwardedParams schema.fields parsed) data.headers custom
        let response := postProcessDescription schema response
        let response :=
          if logRequestDetails then dictRemove response "telemetryData" else response
        return PyReturn.http (.int 200) response : Except String PyReturn) with
  | .ok r => r
  | .error e => PyReturn.http (.int 500) (handle_error e 500)

/-! ## Concrete requests, events and downstream stubs used by the claims -/

/-- A downstream function that raises `Exception("boom")` on invocation. -/
def boomNgd : NgdFunc := fun _ _ _ => .error "boom"

/-- A downstream function that returns a fixed success payload. -/
def okNgd : NgdFunc := fun _ _ _ => .ok [("ok", .bool true)]

/-- A latest-collections downstream stub (full listing). -/
def okLatestAll : Dict → Except String Dict := fun _ => .ok [("ok", .bool true)]

/-- A latest-collections downstream stub (single-collection lookup). -/
def okLatestSpecific : Value → Dict → Except String Dict := fun _ _ => .ok []

/-- A well-formed AWS event for a GET items request with no query
parameters and path parameter `collection = c1`. -/
def eventPlainGet : Event :=
  ⟨some [("method", .str "GET")],
   some [("domainName", .str "api.example"), ("path", .str "/items")],
   some [], some [("collection", .str "c1")], some []⟩

/-- The canonical request the adapter builds from `eventPlainGet`. -/
def requestPlainGet : BaseSerialisedRequest :=
  ⟨.str "GET", "api.example/items", [], some [("collection", .str "c1")], []⟩

/-- A well-formed AWS event for a GET multi-collection request carrying the
raw query parameter `collection = "a,b"`. -/
def eventMultiCol : Event :=
  ⟨some [("method", .str "GET")],
   some [("domainName", .str "api.example"), ("path", .str "/items")],
   some [("collection", .str "a,b")], some [], some []⟩

/-- The canonical request the adapter builds from `eventMultiCol`; its
`params` is the event's `queryStringParameters` dict itself (stored
without copying). -/
def requestMultiCol : BaseSerialisedRequest :=
  ⟨.str "GET", "api.example/items", [("collection", .str "a,b")], some [], []⟩

/-- A downstream result reporting an error with the `\x7battr\x7d`
placeholder, as in the post-processing contract. -/
def notSupportedResponse : Dict :=
  [("errorSource", .str "X"), ("description", .str "Not supported: {attr}")]

/-- The names a schema declares, on the wire and as attributes: a query key
is "declared" when it matches a field's `data_key` (how `load` matches it)
or a field's attribute name (how the dispatcher's pop matches it). -/
def declaredNames (schema : SchemaDef) : List String :=
  schema.fields.map (fun f => f.dataKey) ++ schema.fields.map (fun f => f.name)

/-- The Base capability fragment: the fields `CatalystBaseSchema` itself
declares. -/
def baseFragment : List SchemaField := [wktField, useLatestCollectionField]

/-- The Geometry/Hierarchical capability fragment: the field
`AbstractHierarchicalSchema` itself declares. -/
def hierarchicalFragment : List SchemaField := [hierarchicalOutputField]

/-- The Limit capability fragment: the field `LimitSchema` itself
declares. -/
def limitFragment : List SchemaField := [requestLimitField]

/-- The Collection capability fragment: the field `ColSchema` itself
declares. -/
def collectionFragment : List SchemaField := [collectionField]

/-! ## Dictionary and string helper lemmas -/

/-- Prepending a binding with a different key does not change a lookup. -/
theorem dictGet_cons_ne (k : String) (v : Value) (d : Dict) (k' : String)
    (h : ¬ k = k') : dictGet ((k, v) :: d) k' = dictGet d k' := by
  simp [dictGet, List.find?, h]

/-- A lookup after `dictSet` finds the value just written. -/
theorem dictGet_dictSet_self (d : Dict) (k : String) (v : Value) :
    dictGet (dictSet d k v) k = some v := by
  unfold dictSet
  by_cases h : d.any (fun kv => kv.1 = k)
  · rw [if_pos h]
    induction d with
    | nil => simp at h
    | cons kv rest ih =>
      by_cases hk : kv.1 = k
      · simp [dictGet, List.find?, hk]
      · simp only [List.any_cons, Bool.or_eq_true, decide_eq_true_eq, hk, false_or] at h
        simpa [dictGet, List.find?, hk] using ih h
  · rw [if_neg h]
    induction d with
    | nil => simp [dictGet, List.find?]
    | cons kv rest ih =>
      simp only [List.any_cons, Bool.or_eq_true, decide_eq_true_eq, not_or] at h
      simp only [List.cons_append]
      rw [dictGet_cons_ne _ _ _ _ h.1]
      exact ih (by simpa using h.2)

/-- Mapping a function over an `Except` does not change whether it is ok. -/
theorem Except.isOk_map {ε α β : Type} (f : α → β) (e : Except ε α) :
    (e.map f).isOk = e.isOk := by
  cases e <;> rfl

/-- A separator-free chunk is returned whole by the split. -/
theorem pySplitAux_no_sep (sep : Char) (l : List Char) (acc : List Char) (h : sep ∉ l) :
    pySplitAux sep l acc = [acc.reverse ++ l] := by
  induction l generalizing acc with
  | nil => simp [pySplitAux]
  | cons c cs ih =>
    have hc : ¬ c = sep := fun e => h (e ▸ List.mem_cons_self c cs)
    rw [pySplitAux, if_neg hc, ih _ (fun e => h (List.mem_cons_of_mem c e))]
    simp

/-- The split cuts at the first separator after a separator-free chunk. -/
theorem pySplitAux_append_sep (sep : Char) (l rest acc : List Char) (h : sep ∉ l) :
    pySplitAux sep (l ++ sep :: rest) acc
      = (acc.reverse ++ l) :: pySplitAux sep rest [] := by
  induction l generalizing acc with
  | nil => simp [pySplitAux]
  | cons c cs ih =>
    have hc : ¬ c = sep := fun e => h (e ▸ List.mem_cons_self c cs)
    rw [List.cons_append, pySplitAux, if_neg hc, ih _ (fun e => h (List.mem_cons_of_mem c e))]
    simp

/-- Python `"a,b,c".split(',') = ["a", "b", "c"]` for comma-free chunks. -/
theorem pySplit_three (a b c : String)
    (ha : ',' ∉ a.data) (hb : ',' ∉ b.data) (hc : ',' ∉ c.data) :
    pySplit (a ++ "," ++ b ++ "," ++ c) ',' = [a, b, c] := by
  have hdata : (a ++ "," ++ b ++ "," ++ c).data
      = a.data ++ ',' :: (b.data ++ ',' :: c.data) := by
    simp [String.data_append]
  rw [pySplit, hdata, pySplitAux_append_sep _ _ _ _ ha]
  rw [pySplitAux_append_sep _ _ _ _ hb, pySplitAux_no_sep _ _ _ hc]
  simp

/-- An input key that matches no declared wire name is invisible to the
declared-field pass of `load`. -/
theorem loadDeclared_cons_unknown (fields : List SchemaField) (k : String) (v : Value)
    (params : Dict) (hk : ∀ f ∈ fields, ¬ f.dataKey = k) :
    loadDeclared ((k, v) :: params) fields = loadDeclared params fields := by
  induction fields with
  | nil => rfl
  | cons f rest ih =>
    have h1 : ¬ k = f.dataKey := fun e => hk f (List.mem_cons_self f rest) e.symm
    rw [loadDeclared, loadDeclared, dictGet_cons_ne _ _ _ _ h1,
      ih (fun g hg => hk g (List.mem_cons_of_mem f hg))]

/-- Marshmallow's falsy literals are not truthy literals. -/
theorem marshFalsy_not_truthy : ∀ s ∈ marshFalsy, s ∉ marshTruthy := by decide

/-! ## Schema field dictionaries, evaluated -/

/-- `CatalystBaseSchema().fields`, evaluated. -/
theorem catalystBaseSchemaFields_eq :
    catalystBaseSchemaFields = [wktField, useLatestCollectionField] := rfl

/-- `LimitSchema().fields`, evaluated. -/
theorem limitSchemaFields_eq :
    limitSchemaFields = [wktField, useLatestCollectionField, requestLimitField] := rfl

/-- `GeomSchema().fields`, evaluated. -/
theorem geomSchemaFields_eq :
    geomSchemaFields = [wktField, useLatestCollectionField, hierarchicalOutputField] := rfl

/-- `ColSchema().fields`, evaluated. -/
theorem colSchemaFields_eq :
    colSchemaFields
      = [wktField, useLatestCollectionField, hierarchicalOutputField, collectionField] := rfl

/-- `LimitGeomSchema().fields`, evaluated. -/
theorem limitGeomSchemaFields_eq :
    limitGeomSchemaFields
      = [wktField, useLatestCollectionField, hierarchicalOutputField, requestLimitField] := rfl

/-- `LimitColSchema().fields`, evaluated. -/
theorem limitColSchemaFields_eq :
    limitColSchemaFields
      = [wktField, useLatestCollectionField, hierarchicalOutputField, collectionField,
         requestLimitField] := rfl

/-- `GeomColSchema().fields`, evaluated. -/
theorem geomColSchemaFields_eq :
    geomColSchemaFields
      = [wktField, useLatestCollectionField, hierarchicalOutputField, collectionField] := rfl

/-- `LimitGeomColSchema().fields`, evaluated. -/
theorem limitGeomColSchemaFields_eq :
    limitGeomColSchemaFields
      = [wktField, useLatestCollectionField, hierarchicalOutputField, collectionField,
         requestLimitField] := rfl

/-- The only boolean fields across the eight feature schemas are
`use_latest_collection` and `hierarchical_output`. -/
theorem boolean_fields_enumerated :
    ∀ sc ∈ featureSchemas, ∀ g ∈ sc.fields, g.ty = FieldType.boolean →
      g = useLatestCollectionField ∨ g = hierarchicalOutputField := by decide

/-! ## Claims -/

/-- Claim C1: the claim says an exception raised by the downstream
function is always caught and surfaced as a `{code: 500, errorSource:
"Catalyst Wrapper"}` envelope, never propagated raw.  The code violates
this: on the AWS path the `except` block of `aws_process_request`
serialises the `handle_error` body through `aws_serialise_response`,
which raises `KeyError('headers')`, so an exception does reach the
platform; on the `function_app.py` Azure path the `except` block builds
the error body but never returns it, so the handler returns `None`
rather than a response envelope.  Only the `Azure/function_app.py`
variant returns the promised 500 envelope. -/
theorem unhandled_downstream_exception_not_enveloped :
    aws_process_request (construct_features_response LimitSchema boomNgd) eventPlainGet
      = .error "KeyError: headers"
    ∧ fa_construct_response LimitSchema boomNgd requestPlainGet = .implicitNone
    ∧ azure_construct_response true LimitSchema boomNgd requestPlainGet
        = .http (.int 500) (handle_error "boom" 500) :=
  ⟨rfl, rfl, rfl⟩

/-- Claim C2: the claim says the `\x7battr\x7d` placeholder is replaced by
the schema's hyphen-converted field names with the Limit field excluded,
yielding "wkt, use-latest-collection, hierarchical-output" for the
Limit+Geometry schema.  The code filters with `x != 'limit'`, but the
Limit field's attribute name is `request_limit`, so the filter excludes
nothing and the substituted list also contains `request-limit`. -/
theorem attr_substitution_includes_request_limit :
    postProcessDescription LimitGeomSchema notSupportedResponse
      = [("errorSource", .str "X"),
         ("description",
          .str "Not supported: wkt, use-latest-collection, hierarchical-output, request-limit")]
    ∧ ¬ ("wkt, use-latest-collection, hierarchical-output, request-limit"
          = "wkt, use-latest-collection, hierarchical-output") :=
  ⟨rfl, by decide⟩

/-- Claim C3: every schema-declared field name present in the validated
mapping is popped into the control-parameter set (with its validated
value) and is absent from the forwarded `query_params`; and for a
single-collection schema the `collection` entry of the control set is
exactly the path parameter's value, whatever the query parameters hold. -/
theorem declared_fields_partitioned_into_control_params
    (schema : SchemaDef) (parsed rp : Dict) (f : SchemaField) (v : Value)
    (hf : f ∈ schema.fields) (hv : dictGet parsed f.name = some v) :
    (f.name, v) ∈ controlPop schema.fields parsed
    ∧ dictGet (forwardedParams schema.fields parsed) f.name = Option.none
    ∧ (schema.isCol = false →
        dictGet (controlParams schema parsed rp) "collection"
          = some ((dictGet rp "collection").getD Value.null)) := by
  refine ⟨?_, ?_, ?_⟩
  · exact List.mem_filterMap.2 ⟨f, hf, by rw [hv]; rfl⟩
  · rw [dictGet, List.find?_eq_none.2, Option.map_none']
    intro kv hkv
    have h2 := (List.mem_filter.1 hkv).2
    simp only [decide_eq_true_eq] at h2 ⊢
    intro hkey
    exact h2 (List.any_eq_true.2 ⟨f, hf, by simp [hkey]⟩)
  · intro hcol
    rw [controlParams, if_neg (by simp [hcol])]
    exact dictGet_dictSet_self _ _ _

/-- Claim C3, witness: the partition at a concrete validated mapping of
`LimitSchema` with a `wkt` value and path collection `bld-fts-building`. -/
theorem partition_witness :
    ("wkt", Value.str "POLYGON") ∈ controlPop LimitSchema.fields [("wkt", Value.str "POLYGON")]
    ∧ dictGet (forwardedParams LimitSchema.fields [("wkt", Value.str "POLYGON")]) "wkt"
        = Option.none
    ∧ (LimitSchema.isCol = false →
        dictGet (controlParams LimitSchema [("wkt", Value.str "POLYGON")]
            [("collection", Value.str "bld-fts-building")]) "collection"
          = some (Value.str "bld-fts-building")) :=
  declared_fields_partitioned_into_control_params LimitSchema _ _ wktField _
    (by decide) (by rfl)

/-- Claim C4: on every Collection-capability schema, a raw comma-delimited
`collection` value `a,b,c` is split into a list before `schema.load` runs,
and validation returns the three-element list `[a, b, c]` in order. -/
theorem multi_collection_split_precedes_validation
    (schema : SchemaDef) (a b c : String)
    (hschema : schema ∈ [ColSchema, LimitColSchema, GeomColSchema, LimitGeomColSchema])
    (ha : ',' ∉ a.data) (hb : ',' ∉ b.data) (hc : ',' ∉ c.data) :
    (splitCollectionParams schema.isCol
        [("collection", .str (a ++ "," ++ b ++ "," ++ c))]).bind
      (fun ps => schemaLoad schema.fields ps)
    = .ok [("collection", .list [a, b, c])] := by
  have hsplit := pySplit_three a b c ha hb hc
  have hne : ¬ (a ++ "," ++ b ++ "," ++ c) = "" := by
    intro h
    have h2 := congrArg String.data h
    simp [String.data_append] at h2
  fin_cases hschema <;>
    simp [splitCollectionParams, ColSchema, LimitColSchema, GeomColSchema, LimitGeomColSchema,
      colSchemaFields_eq, limitColSchemaFields_eq, geomColSchemaFields_eq,
      limitGeomColSchemaFields_eq, dictGet, dictSet, List.find?, valTruthy, hne, hsplit,
      schemaLoad, loadDeclared, coerceValue, Except.bind, Except.map,
      wktField, useLatestCollectionField, hierarchicalOutputField, collectionField,
      requestLimitField]

/-- Claim C4, witness: `collection=a,b,c` on the Base+Collection schema
validates to `["a", "b", "c"]`. -/
theorem multi_collection_split_witness :
    (splitCollectionParams ColSchema.isCol
        [("collection", .str ("a" ++ "," ++ "b" ++ "," ++ "c"))]).bind
      (fun ps => schemaLoad ColSchema.fields ps)
    = .ok [("collection", .list ["a", "b", "c"])] :=
  multi_collection_split_precedes_validation ColSchema "a" "b" "c"
    (by decide) (by decide) (by decide) (by decide)

/-- Claim C5: a query key that matches none of the schema's declared names
(neither a wire name nor an attribute name) never causes validation to
fail, appears unchanged in the validated mapping, and survives the
dispatcher's pops into the forwarded `query_params`. -/
theorem unknown_query_keys_pass_through
    (schema : SchemaDef) (k : String) (v : Value) (params parsed : Dict)
    (hschema : schema ∈ featureSchemas)
    (hk : ¬ k ∈ declaredNames schema) :
    (schemaLoad schema.fields ((k, v) :: params)).isOk
        = (schemaLoad schema.fields params).isOk
    ∧ (schemaLoad schema.fields ((k, v) :: params) = .ok parsed →
        (k, v) ∈ parsed ∧ (k, v) ∈ forwardedParams schema.fields parsed) := by
  have hkd : ∀ f ∈ schema.fields, ¬ f.dataKey = k := by
    intro f hf e
    exact hk (List.mem_append.2 (Or.inl (List.mem_map.2 ⟨f, hf, e⟩)))
  have hkn : ∀ f ∈ schema.fields, ¬ f.name = k := by
    intro f hf e
    exact hk (List.mem_append.2 (Or.inr (List.mem_map.2 ⟨f, hf, e⟩)))
  constructor
  · rw [schemaLoad, schemaLoad, loadDeclared_cons_unknown _ _ _ _ hkd,
      Except.isOk_map, Except.isOk_map]
  · intro hok
    rw [schemaLoad, loadDeclared_cons_unknown _ _ _ _ hkd] at hok
    cases hkl : loadDeclared params schema.fields with
    | error e => rw [hkl] at hok; exact absurd hok (by simp [Except.map])
    | ok d =>
      rw [hkl] at hok
      have hfilter : (((k, v) :: params).filter
          (fun kv => schema.fields.all (fun f => ¬ f.dataKey = kv.1)))
          = (k, v) :: params.filter
              (fun kv => schema.fields.all (fun f => ¬ f.dataKey = kv.1)) := by
        rw [List.filter_cons_of_pos]
        simp only [List.all_eq_true, decide_eq_true_eq]
        intro f hf
        exact hkd f hf
      simp only [Except.map, hfilter] at hok
      have hparsed : parsed
          = d ++ (k, v) :: params.filter
              (fun kv => schema.fields.all (fun f => ¬ f.dataKey = kv.1)) := by
        cases hok; rfl
      subst hparsed
      constructor
      · exact List.mem_append.2 (Or.inr (List.mem_cons_self _ _))
      · rw [forwardedParams]
        refine List.mem_filter.2 ⟨List.mem_append.2 (Or.inr (List.mem_cons_self _ _)), ?_⟩
        simp only [decide_eq_true_eq]
        intro hany
        rcases List.any_eq_true.1 hany with ⟨f, hf, he⟩
        exact hkn f hf (by simpa using he)

/-- Claim C5, witness: the undeclared key `filter` on the Base schema is
kept by validation and forwarded. -/
theorem unknown_key_witness :
    (schemaLoad CatalystBaseSchema.fields [("filter", Value.str "q")]).isOk
        = (schemaLoad CatalystBaseSchema.fields []).isOk
    ∧ (schemaLoad CatalystBaseSchema.fields [("filter", Value.str "q")]
          = .ok [("filter", Value.str "q")] →
        ("filter", Value.str "q") ∈ [("filter", Value.str "q")]
        ∧ ("filter", Value.str "q")
            ∈ forwardedParams CatalystBaseSchema.fields [("filter", Value.str "q")]) :=
  unknown_query_keys_pass_through CatalystBaseSchema "filter" (Value.str "q") [] _
    (by decide) (by decide)

/-- Claim C6: on the latest-collections endpoint, a query mapping with
more than one entry, or exactly one entry under a key other than
`recent-update-days`, is answered with the fixed 400 body — before and
regardless of schema validation; the empty mapping is accepted and
dispatched with no parameters; and `recent-update-days=28` is accepted
with the value coerced to the integer 28. -/
theorem latest_collections_parameter_guard
    (g : Dict → Except String Dict) (gs : Value → Dict → Except String Dict)
    (url : String) (rp hdrs : Dict) (params : Dict) (k : String) (v : Value)
    (hrp : dictGet rp "collection" = Option.none) :
    (params.length > 1 →
      construct_collections_response g gs ⟨.str "GET", url, params, some rp, hdrs⟩
        = .ok latestCollectionsRejectBody)
    ∧ (¬ k = "recent-update-days" →
      construct_collections_response g gs ⟨.str "GET", url, [(k, v)], some rp, hdrs⟩
        = .ok latestCollectionsRejectBody)
    ∧ construct_collections_response g gs ⟨.str "GET", url, [], some rp, hdrs⟩ = g []
    ∧ construct_collections_response g gs
        ⟨.str "GET", url, [("recent-update-days", .str "28")], some rp, hdrs⟩
      = g [("recent_update_days", .int 28)] := by
  have hrp2 : List.find? (fun kv => decide (kv.1 = "collection")) rp = Option.none := by
    simpa [dictGet] using hrp
  refine ⟨?_, ?_, ?_, ?_⟩
  · intro hlen
    simp [construct_collections_response, hlen, pure, Except.pure, bind, Except.bind]
  · intro hk
    have hget : dictGet [(k, v)] "recent-update-days" = Option.none := by
      rw [dictGet_cons_ne _ _ _ _ hk]; rfl
    simp [construct_collections_response, hget, pyTruthy, pure, Except.pure, bind, Except.bind]
  · simp [construct_collections_response, hrp2, schemaLoad, loadDeclared,
      latestCollectionsSchemaFields, declaredFields, fieldDictInsert,
      flagRecentUpdatesField, recentUpdateDaysField, dictGet, List.find?,
      Except.map, pure, Except.pure, bind, Except.bind]
  · simp [construct_collections_response, hrp2, schemaLoad, loadDeclared,
      latestCollectionsSchemaFields, declaredFields, fieldDictInsert,
      flagRecentUpdatesField, recentUpdateDaysField, dictGet, List.find?,
      pyTruthy, valTruthy, coerceValue, pyParseInt, isPySpace, digitsToNat,
      digitsValAux, charDigit?, Except.map, pure, Except.pure, bind, Except.bind]

/-- Claim C6, witness: the guard at concrete inputs — a two-entry mapping
and `foo=1` are rejected, the empty mapping and `recent-update-days=28`
are dispatched downstream (the latter with integer 28). -/
theorem latest_collections_guard_witness :
    construct_collections_response okLatestAll okLatestSpecific
        ⟨.str "GET", "u", [("a", .str "1"), ("b", .str "2")], some [], []⟩
      = .ok latestCollectionsRejectBody
    ∧ construct_collections_response okLatestAll okLatestSpecific
        ⟨.str "GET", "u", [("foo", .str "1")], some [], []⟩
      = .ok latestCollectionsRejectBody
    ∧ construct_collections_response okLatestAll okLatestSpecific
        ⟨.str "GET", "u", [], some [], []⟩ = okLatestAll []
    ∧ construct_collections_response okLatestAll okLatestSpecific
        ⟨.str "GET", "u", [("recent-update-days", .str "28")], some [], []⟩
      = okLatestAll [("recent_update_days", .int 28)] :=
  ⟨(latest_collections_parameter_guard okLatestAll okLatestSpecific "u" [] []
      [("a", .str "1"), ("b", .str "2")] "x" Value.null rfl).1 (by decide),
   (latest_collections_parameter_guard okLatestAll okLatestSpecific "u" [] []
      [] "foo" (.str "1") rfl).2.1 (by decide),
   (latest_collections_parameter_guard okLatestAll okLatestSpecific "u" [] []
      [] "x" Value.null rfl).2.2.1,
   (latest_collections_parameter_guard okLatestAll okLatestSpecific "u" [] []
      [] "x" Value.null rfl).2.2.2⟩

/-- Claim C7: each of the eight composed schemas declares exactly the
union of the capability fragments it is built from (the fragments being
the fields each class in its inheritance chain itself declares), with no
duplicate field names, and the one required fragment field — the
Collection list — stays required in every composed schema containing it. -/
theorem schema_fields_union_of_fragments :
    (catalystBaseSchemaFields.toFinset = baseFragment.toFinset
     ∧ limitSchemaFields.toFinset = baseFragment.toFinset ∪ limitFragment.toFinset
     ∧ geomSchemaFields.toFinset = baseFragment.toFinset ∪ hierarchicalFragment.toFinset
     ∧ colSchemaFields.toFinset
         = baseFragment.toFinset ∪ hierarchicalFragment.toFinset ∪ collectionFragment.toFinset
     ∧ limitGeomSchemaFields.toFinset
         = baseFragment.toFinset ∪ hierarchicalFragment.toFinset ∪ limitFragment.toFinset
     ∧ limitColSchemaFields.toFinset
         = baseFragment.toFinset ∪ hierarchicalFragment.toFinset ∪ collectionFragment.toFinset
             ∪ limitFragment.toFinset
     ∧ geomColSchemaFields.toFinset
         = baseFragment.toFinset ∪ hierarchicalFragment.toFinset ∪ collectionFragment.toFinset
     ∧ limitGeomColSchemaFields.toFinset
         = baseFragment.toFinset ∪ hierarchicalFragment.toFinset ∪ collectionFragment.toFinset
             ∪ limitFragment.toFinset)
    ∧ ((catalystBaseSchemaFields.map (fun f => f.name)).Nodup
     ∧ (limitSchemaFields.map (fun f => f.name)).Nodup
     ∧ (geomSchemaFields.map (fun f => f.name)).Nodup
     ∧ (colSchemaFields.map (fun f => f.name)).Nodup
     ∧ (limitGeomSchemaFields.map (fun f => f.name)).Nodup
     ∧ (limitColSchemaFields.map (fun f => f.name)).Nodup
     ∧ (geomColSchemaFields.map (fun f => f.name)).Nodup
     ∧ (limitGeomColSchemaFields.map (fun f => f.name)).Nodup)
    ∧ (collectionFragment.all (fun f => f.required)
     ∧ collectionField ∈ colSchemaFields ∧ collectionField ∈ limitColSchemaFields
     ∧ collectionField ∈ geomColSchemaFields ∧ collectionField ∈ limitGeomColSchemaFields) := by
  refine ⟨⟨?_, ?_, ?_, ?_, ?_, ?_, ?_, ?_⟩, ⟨?_, ?_, ?_, ?_, ?_, ?_, ?_, ?_⟩,
    ?_, ?_, ?_, ?_, ?_⟩ <;> decide

/-- Claim C8, counterexample: the claim says boolean coercion is a
case-sensitive match against `"true"`/`"false"` only, so `"True"` should
fail with a 400.  Marshmallow's `Boolean` accepts `"True"`, so validation
succeeds and the downstream function is invoked. -/
theorem boolean_literal_True_accepted :
    schemaLoad CatalystBaseSchema.fields [("use-latest-collection", .str "True")]
      = .ok [("use_latest_collection", .bool true)]
    ∧ construct_features_response CatalystBaseSchema okNgd
        ⟨.str "GET", "u", [("use-latest-collection", .str "True")], some [], []⟩
      = .ok [("ok", .bool true)] :=
  ⟨rfl, rfl⟩

/-- Claim C8, amended: boolean coercion matches the raw string against
marshmallow's literal truthy set (t, T, true, True, TRUE, on, On, ON, y,
Y, yes, Yes, YES, 1) and falsy set (f, F, false, False, FALSE, off, Off,
OFF, n, N, no, No, NO, 0); any other string fails coercion, and a request
carrying it for a declared boolean field gets a 400 validation failure. -/
theorem boolean_coercion_marshmallow_truthy_falsy
    (schema : SchemaDef) (f : SchemaField) (s : String)
    (hschema : schema ∈ featureSchemas) (hf : f ∈ schema.fields)
    (hty : f.ty = FieldType.boolean) :
    (s ∈ marshTruthy → coerceValue f.ty (.str s) = some (.bool true))
    ∧ (s ∈ marshFalsy → coerceValue f.ty (.str s) = some (.bool false))
    ∧ (¬ s ∈ marshTruthy → ¬ s ∈ marshFalsy →
        ∀ (ngd : NgdFunc) (url : String) (rp hdrs : Dict),
          construct_features_response schema ngd
            ⟨.str "GET", url, [(f.dataKey, .str s)], some rp, hdrs⟩
          = .ok (handle_error ("Invalid value for field " ++ f.dataKey) 400)) := by
  refine ⟨?_, ?_, ?_⟩
  · intro hs
    rw [hty]
    simp [coerceValue, hs]
  · intro hs
    have hns := marshFalsy_not_truthy s hs
    rw [hty]
    simp [coerceValue, hs, hns]
  · intro h1 h2 ngd url rp hdrs
    rcases boolean_fields_enumerated schema hschema f hf hty with rfl | rfl <;>
      fin_cases hschema <;>
      first
      | exact absurd hf (by decide)
      | simp [construct_features_response, splitCollectionParams,
          CatalystBaseSchema, LimitSchema, GeomSchema, ColSchema, LimitGeomSchema,
          LimitColSchema, GeomColSchema, LimitGeomColSchema,
          catalystBaseSchemaFields_eq, limitSchemaFields_eq, geomSchemaFields_eq,
          colSchemaFields_eq, limitGeomSchemaFields_eq, limitColSchemaFields_eq,
          geomColSchemaFields_eq, limitGeomColSchemaFields_eq,
          wktField, useLatestCollectionField, hierarchicalOutputField, collectionField,
          requestLimitField, dictGet, List.find?, schemaLoad, loadDeclared, coerceValue,
          h1, h2, pure, Except.pure, bind, Except.bind, Except.map]

/-- Claim C8, witness: `"True"` is a truthy literal and coerces to `true`;
the non-literal `"maybe"` yields the 400 validation failure. -/
theorem boolean_coercion_witness :
    ("True" ∈ marshTruthy →
      coerceValue useLatestCollectionField.ty (.str "True") = some (.bool true))
    ∧ construct_features_response CatalystBaseSchema okNgd
        ⟨.str "GET", "u", [("use-latest-collection", .str "maybe")], some [], []⟩
      = .ok (handle_error "Invalid value for field use-latest-collection" 400) :=
  ⟨(boolean_coercion_marshmallow_truthy_falsy CatalystBaseSchema useLatestCollectionField
      "True" (by decide) (by decide) rfl).1,
   (boolean_coercion_marshmallow_truthy_falsy CatalystBaseSchema useLatestCollectionField
      "maybe" (by decide) (by decide) rfl).2.2 (by decide) (by decide) okNgd "u" [] []⟩

/-- Claim C9: the claim says neither the trigger event nor the canonical
request is ever mutated.  The code violates this: `AWSSerialisedRequest`
stores `event.get('queryStringParameters', {})` without copying, and the
multi-collection branch of `construct_features_response` assigns
`params['collection'] = col.split(',')` on that very dict, so the
request's (and event's) query mapping changes from `"a,b"` to the list
`["a", "b"]`. -/
theorem aws_adapter_params_mutated_in_place :
    awsSerialisedRequest eventMultiCol = .ok requestMultiCol
    ∧ requestMultiCol.params = eventMultiCol.queryStringParameters.getD []
    ∧ splitCollectionParams ColSchema.isCol requestMultiCol.params
        = .ok [("collection", .list ["a", "b"])]
    ∧ ¬ ([("collection", Value.list ["a", "b"])] = requestMultiCol.params) :=
  ⟨rfl, rfl, rfl, by decide⟩

/-- Claim C10: a single `recent-update-days` parameter whose raw value is
the empty string fails the guard's truthiness test and is rejected with
the fixed 400 body; any accepted single `recent-update-days` value is a
non-empty string. -/
theorem latest_collections_empty_value_rejected
    (g : Dict → Except String Dict) (gs : Value → Dict → Except String Dict)
    (url : String) (rp hdrs : Dict) :
    construct_collections_response g gs
        ⟨.str "GET", url, [("recent-update-days", .str "")], some rp, hdrs⟩
      = .ok latestCollectionsRejectBody
    ∧ (∀ s : String,
        ¬ construct_collections_response g gs
            ⟨.str "GET", url, [("recent-update-days", .str s)], some rp, hdrs⟩
          = .ok latestCollectionsRejectBody
        → ¬ s = "") := by
  have hempty : construct_collections_response g gs
      ⟨.str "GET", url, [("recent-update-days", .str "")], some rp, hdrs⟩
      = .ok latestCollectionsRejectBody := by
    simp [construct_collections_response, dictGet, List.find?, pyTruthy, valTruthy,
      pure, Except.pure, bind, Except.bind]
  refine ⟨hempty, ?_⟩
  intro s hne hs
  exact hne (hs ▸ hempty)

/-- Claim C10, witness: the empty value is rejected at a concrete request,
while the accepted value `"28"` is indeed non-empty. -/
theorem empty_value_rejected_witness :
    construct_collections_response okLatestAll okLatestSpecific
        ⟨.str "GET", "u", [("recent-update-days", .str "")], some [], []⟩
      = .ok latestCollectionsRejectBody
    ∧ ¬ ("28" = "") :=
  ⟨(latest_collections_empty_value_rejected okLatestAll okLatestSpecific "u" [] []).1,
   (latest_collections_empty_value_rejected okLatestAll okLatestSpecific "u" [] []).2 "28"
     (by
      have h1 : construct_collections_response okLatestAll okLatestSpecific
          ⟨.str "GET", "u", [("recent-update-days", .str "28")], some [], []⟩
          = .ok [("ok", Value.bool true)] := rfl
      rw [h1]
      intro h
      exact absurd (Except.ok.inj h) (by decide))⟩
